import Mathlib

/-!
Shallow embedding of the shop-bot core (telegram_shop_bot.py): the SQLite
tables become lists of records inside a `DB` state, and the `db_*` helpers
plus the checkout / admin handlers become pure state-passing functions.
SQLite's `CURRENT_TIMESTAMP` is modelled by a logical clock `time` carried
in the state; a persistence failure of the order INSERT is modelled by a
boolean oracle passed to `db_create_order`.
-/

/-- Row of the `products` table. -/
structure Product where
  id : Nat
  title : String
  description : Option String
  price : Int
  image : Option String
deriving DecidableEq, Repr

/-- Row of the `carts` table (primary key (user_id, product_id)). -/
structure CartLine where
  user_id : Nat
  product_id : Nat
  qty : Int
deriving DecidableEq, Repr

/-- One element of the JSON `items` payload stored inside an order. -/
structure OrderItem where
  product_id : Nat
  title : String
  qty : Int
  price : Int
deriving DecidableEq, Repr

/-- Row of the `orders` table; `created_at` is the logical clock value. -/
structure Order where
  id : Nat
  user_id : Nat
  items : List OrderItem
  total : Int
  status : String
  created_at : Nat
deriving DecidableEq, Repr

/-- Whole database state, plus the AUTOINCREMENT counters and the clock. -/
structure DB where
  products : List Product
  carts : List CartLine
  orders : List Order
  next_product_id : Nat
  next_order_id : Nat
  time : Nat
deriving DecidableEq, Repr

/-- Fresh database as created by `init_db` (AUTOINCREMENT starts at 1). -/
def init_db : DB :=
  { products := [], carts := [], orders := [],
    next_product_id := 1, next_order_id := 1, time := 0 }

/-- Value of the `PAGE_SIZE` configuration constant. -/
def PAGE_SIZE : Nat := 6

/-- Descending sort on a `Nat` key, modelling SQL ORDER BY key DESC. -/
def sortDescBy (key : α → Nat) (l : List α) : List α :=
  List.insertionSort (fun a b => key b ≤ key a) l

instance instIsTotalKeyGe (key : α → Nat) :
    IsTotal α (fun a b => key b ≤ key a) :=
  ⟨fun a b => Nat.le_total (key b) (key a)⟩

instance instIsTransKeyGe (key : α → Nat) :
    IsTrans α (fun a b => key b ≤ key a) :=
  ⟨fun _ _ _ h1 h2 => Nat.le_trans h2 h1⟩

/-- Embedding of db_get_products: ORDER BY id DESC LIMIT PAGE_SIZE
OFFSET PAGE_SIZE * page. -/
def db_get_products (db : DB) (page : Nat) : List Product :=
  ((sortDescBy Product.id db.products).drop (PAGE_SIZE * page)).take PAGE_SIZE

/-- Embedding of db_get_product: lookup by id, absence is None. -/
def db_get_product (db : DB) (pid : Nat) : Option Product :=
  db.products.find? (fun p => p.id == pid)

/-- Embedding of db_add_product: unconditional INSERT, returns lastrowid. -/
def db_add_product (db : DB) (title : String) (description : Option String)
    (price : Int) (image : Option String) : DB × Nat :=
  let pid := db.next_product_id
  ({ db with
      products := db.products ++
        [{ id := pid, title := title, description := description,
           price := price, image := image }],
      next_product_id := pid + 1 }, pid)

/-- Key match used by the cart SELECT / UPDATE / DELETE statements. -/
def lineMatches (user_id product_id : Nat) (l : CartLine) : Bool :=
  l.user_id == user_id && l.product_id == product_id

/-- Update applied by the cart UPDATE statement to every matching row. -/
def bumpIf (user_id product_id : Nat) (qty : Int) (l : CartLine) : CartLine :=
  if lineMatches user_id product_id l then { l with qty := l.qty + qty } else l

/-- Embedding of db_add_to_cart: SELECT qty; if a row exists, UPDATE
qty = qty + ?; else INSERT the new line. -/
def db_add_to_cart (db : DB) (user_id product_id : Nat) (qty : Int) : DB :=
  if db.carts.any (lineMatches user_id product_id) then
    { db with carts := db.carts.map (bumpIf user_id product_id qty) }
  else
    { db with carts := db.carts ++
        [{ user_id := user_id, product_id := product_id, qty := qty }] }

/-- Embedding of db_get_cart: iterate the user's rows, resolve each
product, silently skip unresolved ones, accumulate items and total. -/
def db_get_cart (db : DB) (user_id : Nat) : List (Product × Int) × Int :=
  (db.carts.filter (fun l => l.user_id == user_id)).foldl
    (fun acc l =>
      match db_get_product db l.product_id with
      | none => acc
      | some p => (acc.1 ++ [(p, l.qty)], acc.2 + p.price * l.qty))
    ([], 0)

/-- Embedding of db_clear_cart: DELETE FROM carts WHERE user_id = ?. -/
def db_clear_cart (db : DB) (user_id : Nat) : DB :=
  { db with carts := db.carts.filter (fun l => !(l.user_id == user_id)) }

/-- Embedding of the remove_ branch of callback_query_handler:
DELETE FROM carts WHERE user_id = ? AND product_id = ?. -/
def db_remove_from_cart (db : DB) (user_id product_id : Nat) : DB :=
  { db with carts := db.carts.filter (fun l => !(lineMatches user_id product_id l)) }

/-- Embedding of db_create_order: INSERT the order row (status defaults to
new, created_at stamps the clock) and return lastrowid; when the oracle
says the write fails, nothing is inserted and no id is returned. -/
def db_create_order (persistOk : Bool) (db : DB) (user_id : Nat)
    (items : List OrderItem) (total : Int) : DB × Option Nat :=
  if persistOk then
    let oid := db.next_order_id
    ({ db with
        orders := db.orders ++
          [{ id := oid, user_id := user_id, items := items, total := total,
             status := "new", created_at := db.time }],
        next_order_id := oid + 1, time := db.time + 1 }, some oid)
  else (db, none)

/-- Embedding of db_list_orders: SELECT ... ORDER BY created_at DESC. -/
def db_list_orders (db : DB) : List Order :=
  sortDescBy Order.created_at db.orders

/-- Outcome rendered back to the user by a handler. -/
inductive Reply where
  | accessDenied
  | promptProduct
  | badFormat
  | badPrice
  | productAdded (pid : Nat)
  | unknownCommand
deriving DecidableEq, Repr

/-- Outcome of the checkout callback. -/
inductive CheckoutResult where
  | emptyCart
  | persistenceFailed
  | ok (oid : Nat) (total : Int)
deriving DecidableEq, Repr

/-- Snapshot taken by checkout_callback of one surviving cart line. -/
def snapshotItem (it : Product × Int) : OrderItem :=
  { product_id := it.1.id, title := it.1.title, qty := it.2, price := it.1.price }

/-- Embedding of checkout_callback: read the cart, bail out on empty,
snapshot the lines, create the order, then clear the cart.  On a failed
order INSERT the function stops with the state as it stands. -/
def checkout_callback (persistOk : Bool) (db : DB) (user_id : Nat) :
    DB × CheckoutResult :=
  let ct := db_get_cart db user_id
  if ct.1.isEmpty then (db, .emptyCart)
  else
    let payload_items := ct.1.map snapshotItem
    let r := db_create_order persistOk db user_id payload_items ct.2
    match r.2 with
    | none => (r.1, .persistenceFailed)
    | some oid => (db_clear_cart r.1 user_id, .ok oid ct.2)

/-- Per-chat handler state (context.user_data). -/
structure UserData where
  admin_adding : Bool
deriving DecidableEq, Repr

/-- Embedding of admin_add_start: deny non-admins, else prompt and set
the admin_adding flag. -/
def admin_add_start (admin_ids : List Nat) (db : DB) (ud : UserData)
    (user_id : Nat) : DB × UserData × Reply :=
  if user_id ∉ admin_ids then (db, ud, .accessDenied)
  else (db, { ud with admin_adding := true }, .promptProduct)

/-- Embedding of text_handler: only an admin with the admin_adding flag
set reaches the product-insertion path; the pipe-separated text is split,
trimmed, and the price parsed as an integer (int() modelled by
String.toInt?). -/
def text_handler (admin_ids : List Nat) (db : DB) (ud : UserData)
    (user_id : Nat) (txt : String) : DB × UserData × Reply :=
  if ud.admin_adding = true ∧ user_id ∈ admin_ids then
    let parts := (txt.splitOn "|").map String.trim
    if parts.length < 3 then (db, ud, .badFormat)
    else
      let title := parts.getD 0 ""
      let desc := parts.getD 1 ""
      let price := parts.getD 2 ""
      let image := if parts.length > 3 then some (parts.getD 3 "") else none
      match price.toInt? with
      | none => (db, ud, .badPrice)
      | some price_i =>
        let r := db_add_product db title (some desc) price_i image
        (r.1, { ud with admin_adding := false }, .productAdded r.2)
  else (db, ud, .unknownCommand)

/-! Helper lemmas about the embedded operations. -/

/-- Resolution of one cart row as performed inside db_get_cart. -/
def resolveLine (db : DB) (l : CartLine) : Option (Product × Int) :=
  (db_get_product db l.product_id).map (fun p => (p, l.qty))

lemma lineMatches_iff (u p : Nat) (l : CartLine) :
    lineMatches u p l = true ↔ l.user_id = u ∧ l.product_id = p := by
  simp [lineMatches]

lemma lineMatches_bumpIf (u p : Nat) (q : Int) (l : CartLine) :
    lineMatches u p (bumpIf u p q l) = lineMatches u p l := by
  unfold bumpIf
  split <;> simp [lineMatches]

lemma user_id_bumpIf (u p : Nat) (q : Int) (l : CartLine) :
    (bumpIf u p q l).user_id = l.user_id := by
  unfold bumpIf
  split <;> rfl

lemma cart_foldl_spec (db : DB) (rows : List CartLine)
    (acc : List (Product × Int) × Int) :
    rows.foldl
      (fun acc l =>
        match db_get_product db l.product_id with
        | none => acc
        | some p => (acc.1 ++ [(p, l.qty)], acc.2 + p.price * l.qty)) acc =
    (acc.1 ++ rows.filterMap (resolveLine db),
     acc.2 + ((rows.filterMap (resolveLine db)).map
       (fun it => it.1.price * it.2)).sum) := by
  induction rows generalizing acc with
  | nil => simp
  | cons l rows ih =>
    simp only [List.foldl_cons, List.filterMap_cons, resolveLine]
    cases hp : db_get_product db l.product_id with
    | none => simp [hp, ih, resolveLine]
    | some p => simp [hp, ih, resolveLine, add_assoc]

lemma db_get_cart_eq (db : DB) (u : Nat) :
    db_get_cart db u =
      ((db.carts.filter (fun l => l.user_id == u)).filterMap (resolveLine db),
       (((db.carts.filter (fun l => l.user_id == u)).filterMap
          (resolveLine db)).map (fun it => it.1.price * it.2)).sum) := by
  unfold db_get_cart
  rw [cart_foldl_spec]
  simp

lemma filter_user_of_clear (cs : List CartLine) (u : Nat) :
    (cs.filter fun l => !(l.user_id == u)).filter (fun l => l.user_id == u) = [] := by
  induction cs with
  | nil => rfl
  | cons l cs ih =>
    by_cases h : l.user_id = u
    · simp [List.filter_cons, h, ih]
    · simp [List.filter_cons, h, ih]

lemma isEmpty_false_of_ne {α : Type} (l : List α) (h : l ≠ []) :
    l.isEmpty = false := by
  cases l with
  | nil => exact absurd rfl h
  | cons a t => rfl

/-- State after the order INSERT of a successful checkout for `u`. -/
def dbWithOrder (db : DB) (u : Nat) : DB :=
  { db with
      orders := db.orders ++
        [{ id := db.next_order_id, user_id := u,
           items := (db_get_cart db u).1.map snapshotItem,
           total := (db_get_cart db u).2, status := "new",
           created_at := db.time }],
      next_order_id := db.next_order_id + 1, time := db.time + 1 }

lemma checkout_empty_eq (pk : Bool) (db : DB) (u : Nat)
    (h : (db_get_cart db u).1 = []) :
    checkout_callback pk db u = (db, .emptyCart) := by
  unfold checkout_callback
  simp [h]

lemma checkout_false_eq (db : DB) (u : Nat)
    (h : (db_get_cart db u).1 ≠ []) :
    checkout_callback false db u = (db, .persistenceFailed) := by
  unfold checkout_callback db_create_order
  simp [isEmpty_false_of_ne _ h]

lemma checkout_true_eq (db : DB) (u : Nat)
    (h : (db_get_cart db u).1 ≠ []) :
    checkout_callback true db u =
      (db_clear_cart (dbWithOrder db u) u,
       .ok db.next_order_id (db_get_cart db u).2) := by
  unfold checkout_callback db_create_order dbWithOrder
  simp [isEmpty_false_of_ne _ h]

/-! Claim theorems. -/

/-- C1: checkout on a cart with at least one surviving line appends exactly
one order whose total is the pre-checkout db_get_cart total and whose items
snapshot each surviving line (product id, title, quantity, unit price at
resolution time); the user's cart rows are gone immediately after, so a
fresh db_get_cart is empty with total 0. -/
theorem C1_checkout_nonempty (db : DB) (u : Nat)
    (h : (db_get_cart db u).1 ≠ []) :
    (checkout_callback true db u).2 =
      .ok db.next_order_id (db_get_cart db u).2 ∧
    (checkout_callback true db u).1.orders = db.orders ++
      [{ id := db.next_order_id, user_id := u,
         items := (db_get_cart db u).1.map snapshotItem,
         total := (db_get_cart db u).2, status := "new",
         created_at := db.time }] ∧
    (checkout_callback true db u).1.carts.filter (fun l => l.user_id == u) = [] ∧
    db_get_cart (checkout_callback true db u).1 u = ([], 0) := by
  rw [checkout_true_eq db u h]
  refine ⟨rfl, by simp [db_clear_cart, dbWithOrder], ?_, ?_⟩
  · simp [db_clear_cart, filter_user_of_clear]
  · rw [db_get_cart_eq]
    simp [db_clear_cart, filter_user_of_clear]

/-- C3: checkout on a cart with no surviving lines (no rows, or rows whose
product no longer resolves) reports the empty cart and returns the state
untouched: no order row is created and nothing else changes. -/
theorem C3_checkout_empty (pk : Bool) (db : DB) (u : Nat)
    (h : (db_get_cart db u).1 = []) :
    checkout_callback pk db u = (db, .emptyCart) :=
  checkout_empty_eq pk db u h

/-- C4: checkout is atomic with respect to order persistence: when the
order INSERT fails the whole state, the user's cart rows included, is
exactly the pre-checkout state; and for either oracle value, if no order
row was appended then the cart rows were not touched (the clear happens
only after a successful write). -/
theorem C4_checkout_atomic (db : DB) (u : Nat)
    (h : (db_get_cart db u).1 ≠ []) :
    checkout_callback false db u = (db, .persistenceFailed) ∧
    ∀ pk : Bool, (checkout_callback pk db u).1.orders = db.orders →
      (checkout_callback pk db u).1.carts = db.carts := by
  constructor
  · exact checkout_false_eq db u h
  · intro pk hord
    cases pk with
    | false => rw [checkout_false_eq db u h]
    | true =>
      exfalso
      rw [checkout_true_eq db u h] at hord
      simp [db_clear_cart, dbWithOrder] at hord

/-- C6: db_get_cart returns exactly the user's cart rows whose product
still resolves (rows referencing a missing product are dropped by the
resolution step, no error path exists), and its total is the sum of
resolved unit price times quantity over exactly those surviving items. -/
theorem C6_get_cart_resolves (db : DB) (u : Nat) :
    (db_get_cart db u).1 =
      (db.carts.filter (fun l => l.user_id == u)).filterMap (resolveLine db) ∧
    (db_get_cart db u).2 =
      ((db_get_cart db u).1.map (fun it => it.1.price * it.2)).sum := by
  rw [db_get_cart_eq]
  exact ⟨rfl, rfl⟩

/-- Concrete state used by several witnesses: one product (id 1, price
500) and a cart of user 1 holding two units of it. -/
def dbC1 : DB :=
  { init_db with
      products := [{ id := 1, title := "w", description := none,
                     price := 500, image := none }],
      carts := [{ user_id := 1, product_id := 1, qty := 2 }],
      next_product_id := 2 }

/-- Witness instantiating C1 at a concrete one-line cart. -/
theorem C1_witness :
    (db_get_cart dbC1 1).1 ≠ [] ∧
    ((checkout_callback true dbC1 1).2 =
        .ok dbC1.next_order_id (db_get_cart dbC1 1).2 ∧
     (checkout_callback true dbC1 1).1.orders = dbC1.orders ++
       [{ id := dbC1.next_order_id, user_id := 1,
          items := (db_get_cart dbC1 1).1.map snapshotItem,
          total := (db_get_cart dbC1 1).2, status := "new",
          created_at := dbC1.time }] ∧
     (checkout_callback true dbC1 1).1.carts.filter (fun l => l.user_id == 1) = [] ∧
     db_get_cart (checkout_callback true dbC1 1).1 1 = ([], 0)) :=
  ⟨by decide, C1_checkout_nonempty dbC1 1 (by decide)⟩

/-- Concrete state whose only cart row references a missing product. -/
def dbDangle : DB :=
  { init_db with carts := [{ user_id := 1, product_id := 9, qty := 2 }] }

/-- Witness instantiating C3 at a cart whose single row does not resolve. -/
theorem C3_witness :
    (db_get_cart dbDangle 1).1 = [] ∧
    checkout_callback true dbDangle 1 = (dbDangle, .emptyCart) :=
  ⟨by decide, C3_checkout_empty true dbDangle 1 (by decide)⟩

/-- Witness instantiating C4 at a concrete one-line cart. -/
theorem C4_witness :
    (db_get_cart dbC1 1).1 ≠ [] ∧
    (checkout_callback false dbC1 1 = (dbC1, .persistenceFailed) ∧
     ∀ pk : Bool, (checkout_callback pk dbC1 1).1.orders = dbC1.orders →
       (checkout_callback pk dbC1 1).1.carts = dbC1.carts) :=
  ⟨by decide, C4_checkout_atomic dbC1 1 (by decide)⟩

/-- C2 as written is false on the code: db_add_product has no validation
path at all, so an empty title with a negative price still inserts a
product row, and db_add_to_cart records a line for quantity 0. -/
theorem C2_counterexample :
    (db_add_product init_db "" none (-5) none).1.products =
      [{ id := 1, title := "", description := none, price := -5, image := none }] ∧
    (db_add_to_cart init_db 7 3 0).carts =
      [{ user_id := 7, product_id := 3, qty := 0 }] := by
  exact ⟨rfl, rfl⟩

/-- C2 amended: neither operation validates its input.  db_add_product
inserts a row for any title (empty included) and any price (negative
included) and returns its fresh id, and db_add_to_cart records or merges
a line for (user, product) for any quantity, non-positive included. -/
theorem C2_amended_no_validation (db : DB) (t : String) (d : Option String)
    (price : Int) (img : Option String) (u p : Nat) (q : Int)
    (_hprice : price < 0) (_hq : q ≤ 0) :
    (db_add_product db t d price img).1.products =
      db.products ++ [{ id := db.next_product_id, title := t, description := d,
                        price := price, image := img }] ∧
    (db_add_product db t d price img).2 = db.next_product_id ∧
    (db_add_to_cart db u p q).carts.any (lineMatches u p) = true := by
  refine ⟨rfl, rfl, ?_⟩
  unfold db_add_to_cart
  by_cases hany : db.carts.any (lineMatches u p) = true
  · simp only [hany, if_true]
    rw [List.any_map]
    have : (lineMatches u p ∘ bumpIf u p q) = lineMatches u p := by
      funext l
      exact lineMatches_bumpIf u p q l
    rw [this, hany]
  · simp only [hany, Bool.false_eq_true, if_false]
    simp [List.any_append, lineMatches]

/-- Witness instantiating the amended C2 at price -5 and quantity 0. -/
theorem C2_amended_witness :
    ((-5 : Int) < 0 ∧ (0 : Int) ≤ 0) ∧
    ((db_add_product init_db "" none (-5) none).1.products =
       init_db.products ++
         [{ id := init_db.next_product_id, title := "", description := none,
            price := -5, image := none }] ∧
     (db_add_product init_db "" none (-5) none).2 = init_db.next_product_id ∧
     (db_add_to_cart init_db 7 3 0).carts.any (lineMatches 7 3) = true) :=
  ⟨by decide,
   C2_amended_no_validation init_db "" none (-5) none 7 3 0 (by decide) (by decide)⟩

/-- C9: a non-privileged actor is denied by admin_add_start with the
access-denied reply and by text_handler with the fallback reply; in both
cases the state, the catalog included, is returned untouched. -/
theorem C9_admin_denied (admin_ids : List Nat) (db : DB) (ud : UserData)
    (uid : Nat) (txt : String) (h : uid ∉ admin_ids) :
    admin_add_start admin_ids db ud uid = (db, ud, .accessDenied) ∧
    text_handler admin_ids db ud uid txt = (db, ud, .unknownCommand) := by
  constructor
  · unfold admin_add_start
    simp [h]
  · unfold text_handler
    rw [if_neg]
    intro hc
    exact h hc.2

/-- Witness instantiating C9: user 7 is not in the admin set [42]. -/
theorem C9_witness :
    (7 : Nat) ∉ [42] ∧
    (admin_add_start [42] init_db { admin_adding := true } 7 =
       (init_db, { admin_adding := true }, .accessDenied) ∧
     text_handler [42] init_db { admin_adding := true } 7 "w|d|5" =
       (init_db, { admin_adding := true }, .unknownCommand)) :=
  ⟨by decide, C9_admin_denied [42] init_db { admin_adding := true } 7 "w|d|5" (by decide)⟩

/-! Frame-property helpers. -/

/-- Cart rows belonging to user `v`. -/
def cartsOf (db : DB) (v : Nat) : List CartLine :=
  db.carts.filter (fun l => l.user_id == v)

lemma lineMatches_false_of_user_ne (u p : Nat) (l : CartLine)
    (h : l.user_id ≠ u) : lineMatches u p l = false := by
  unfold lineMatches
  rw [beq_eq_false_iff_ne.mpr h]
  rfl

lemma bumpIf_of_not_match (u p : Nat) (q : Int) (l : CartLine)
    (h : lineMatches u p l = false) : bumpIf u p q l = l := by
  unfold bumpIf
  simp [h]

lemma filter_v_map_bump (cs : List CartLine) (u p v : Nat) (q : Int)
    (hvu : v ≠ u) :
    (cs.map (bumpIf u p q)).filter (fun l => l.user_id == v) =
      cs.filter (fun l => l.user_id == v) := by
  induction cs with
  | nil => rfl
  | cons l cs ih =>
    by_cases hlv : l.user_id = v
    · have hb : bumpIf u p q l = l :=
        bumpIf_of_not_match u p q l
          (lineMatches_false_of_user_ne u p l (by rw [hlv]; exact hvu))
      simp [List.filter_cons, hb, hlv, ih]
    · have hb : (bumpIf u p q l).user_id = l.user_id := user_id_bumpIf u p q l
      simp [List.filter_cons, hb, hlv, ih]

lemma filter_v_filter_out (cs : List CartLine) (m : CartLine → Bool) (v : Nat)
    (hm : ∀ l : CartLine, l.user_id = v → m l = false) :
    (cs.filter (fun l => !(m l))).filter (fun l => l.user_id == v) =
      cs.filter (fun l => l.user_id == v) := by
  induction cs with
  | nil => rfl
  | cons l cs ih =>
    by_cases hlv : l.user_id = v
    · simp [List.filter_cons, hm l hlv, hlv, ih]
    · by_cases hml : m l = true
      · simp [List.filter_cons, hml, hlv, ih]
      · simp only [Bool.not_eq_true] at hml
        simp [List.filter_cons, hml, hlv, ih]

/-- C10: for two distinct users v and u, every cart-mutating operation for
u (add, remove, clear, checkout) leaves the cart rows of v exactly as they
were, and none of those operations changes any product row. -/
theorem C10_frame (db : DB) (u v p : Nat) (q : Int) (pk : Bool)
    (hvu : v ≠ u) :
    cartsOf (db_add_to_cart db u p q) v = cartsOf db v ∧
    cartsOf (db_remove_from_cart db u p) v = cartsOf db v ∧
    cartsOf (db_clear_cart db u) v = cartsOf db v ∧
    cartsOf (checkout_callback pk db u).1 v = cartsOf db v ∧
    (db_add_to_cart db u p q).products = db.products ∧
    (db_remove_from_cart db u p).products = db.products ∧
    (db_clear_cart db u).products = db.products ∧
    (checkout_callback pk db u).1.products = db.products := by
  have hclear : ∀ db' : DB, cartsOf (db_clear_cart db' u) v = cartsOf db' v := by
    intro db'
    unfold cartsOf db_clear_cart
    exact filter_v_filter_out db'.carts (fun l => l.user_id == u) v
      (fun l hl => by
        show (l.user_id == u) = false
        rw [hl]
        exact beq_eq_false_iff_ne.mpr hvu)
  have hco : cartsOf (checkout_callback pk db u).1 v = cartsOf db v ∧
      (checkout_callback pk db u).1.products = db.products := by
    by_cases hc : (db_get_cart db u).1 = []
    · rw [checkout_empty_eq pk db u hc]
      exact ⟨rfl, rfl⟩
    · cases pk with
      | false =>
        rw [checkout_false_eq db u hc]
        exact ⟨rfl, rfl⟩
      | true =>
        rw [checkout_true_eq db u hc]
        constructor
        · rw [hclear (dbWithOrder db u)]
          rfl
        · rfl
  refine ⟨?_, ?_, hclear db, hco.1, ?_, rfl, rfl, hco.2⟩
  · unfold cartsOf db_add_to_cart
    by_cases hany : db.carts.any (lineMatches u p) = true
    · simp only [hany, if_true]
      exact filter_v_map_bump db.carts u p v q hvu
    · simp only [hany, Bool.false_eq_true, if_false]
      have : lineMatches u p { user_id := u, product_id := p, qty := q } = true := by
        simp [lineMatches]
      simp [List.filter_append, beq_eq_false_iff_ne.mpr (fun hh : u = v => hvu hh.symm)]
  · unfold cartsOf db_remove_from_cart
    exact filter_v_filter_out db.carts (lineMatches u p) v
      (fun l hl => lineMatches_false_of_user_ne u p l (by rw [hl]; exact hvu))
  · unfold db_add_to_cart
    by_cases hany : db.carts.any (lineMatches u p) = true
    · simp [hany]
    · simp [hany]

/-- Witness instantiating C10: user 2 keeps their single cart row while
user 1 adds, removes, clears and checks out. -/
theorem C10_witness :
    (2 : Nat) ≠ 1 ∧
    (cartsOf (db_add_to_cart dbC1 1 1 3) 2 = cartsOf dbC1 2 ∧
     cartsOf (db_remove_from_cart dbC1 1 1) 2 = cartsOf dbC1 2 ∧
     cartsOf (db_clear_cart dbC1 1) 2 = cartsOf dbC1 2 ∧
     cartsOf (checkout_callback true dbC1 1).1 2 = cartsOf dbC1 2 ∧
     (db_add_to_cart dbC1 1 1 3).products = dbC1.products ∧
     (db_remove_from_cart dbC1 1 1).products = dbC1.products ∧
     (db_clear_cart dbC1 1).products = dbC1.products ∧
     (checkout_callback true dbC1 1).1.products = dbC1.products) :=
  ⟨by decide, C10_frame dbC1 1 2 1 3 true (by decide)⟩

/-! Merge-semantics helpers for the cart. -/

/-- Primary key of a cart row. -/
def lineKey (l : CartLine) : Nat × Nat := (l.user_id, l.product_id)

lemma lineKey_bumpIf (u p : Nat) (q : Int) (l : CartLine) :
    lineKey (bumpIf u p q l) = lineKey l := by
  unfold bumpIf lineKey
  split <;> rfl

lemma any_map_bump (cs : List CartLine) (u p : Nat) (q : Int) :
    (cs.map (bumpIf u p q)).any (lineMatches u p) = cs.any (lineMatches u p) := by
  rw [List.any_map]
  have hcomp : (lineMatches u p ∘ bumpIf u p q) = lineMatches u p := by
    funext l
    exact lineMatches_bumpIf u p q l
  rw [hcomp]

lemma map_bump_of_not_any (cs : List CartLine) (u p : Nat) (q : Int)
    (h : cs.any (lineMatches u p) = false) :
    cs.map (bumpIf u p q) = cs := by
  induction cs with
  | nil => rfl
  | cons l cs ih =>
    rw [List.any_cons, Bool.or_eq_false_iff] at h
    rw [List.map_cons, bumpIf_of_not_match u p q l h.1, ih h.2]

lemma bumpIf_bumpIf (u p : Nat) (l : CartLine) :
    bumpIf u p 1 (bumpIf u p 1 l) = bumpIf u p 2 l := by
  by_cases hm : lineMatches u p l = true
  · have hm2 : lineMatches u p { l with qty := l.qty + 1 } = true := by
      rw [← hm]
      rfl
    unfold bumpIf
    simp only [hm, hm2, if_true]
    have : l.qty + 1 + 1 = l.qty + 2 := by omega
    rw [this]
  · rw [bumpIf_of_not_match u p 1 l (by simpa using hm)]
    rw [bumpIf_of_not_match u p 1 l (by simpa using hm)]
    rw [bumpIf_of_not_match u p 2 l (by simpa using hm)]

lemma add_to_cart_any_eq (db : DB) (u p : Nat) (q : Int)
    (hany : db.carts.any (lineMatches u p) = true) :
    db_add_to_cart db u p q = { db with carts := db.carts.map (bumpIf u p q) } := by
  unfold db_add_to_cart
  simp [hany]

lemma add_to_cart_not_any_eq (db : DB) (u p : Nat) (q : Int)
    (hany : db.carts.any (lineMatches u p) = false) :
    db_add_to_cart db u p q =
      { db with carts := db.carts ++
          [{ user_id := u, product_id := p, qty := q }] } := by
  unfold db_add_to_cart
  simp [hany]

lemma filter_map_bump (cs : List CartLine) (u p : Nat) (q : Int) :
    (cs.map (bumpIf u p q)).filter (lineMatches u p) =
      (cs.filter (lineMatches u p)).map (bumpIf u p q) := by
  induction cs with
  | nil => rfl
  | cons l cs ih =>
    by_cases hm : lineMatches u p l = true
    · simp [List.filter_cons, lineMatches_bumpIf, hm, ih]
    · simp [List.filter_cons, lineMatches_bumpIf, hm, ih]

lemma filter_len_le_one (cs : List CartLine) (u p : Nat)
    (hnd : (cs.map lineKey).Nodup) :
    (cs.filter (lineMatches u p)).length ≤ 1 := by
  induction cs with
  | nil => simp
  | cons l cs ih =>
    rw [List.map_cons, List.nodup_cons] at hnd
    by_cases hm : lineMatches u p l = true
    · have hk : lineKey l = (u, p) := by
        obtain ⟨h1, h2⟩ := (lineMatches_iff u p l).mp hm
        rw [lineKey, h1, h2]
      have hnil : cs.filter (lineMatches u p) = [] := by
        rw [List.filter_eq_nil_iff]
        intro x hx hmx
        obtain ⟨hx1, hx2⟩ := (lineMatches_iff u p x).mp hmx
        refine hnd.1 ?_
        rw [hk]
        have : lineKey x = (u, p) := by rw [lineKey, hx1, hx2]
        rw [← this]
        exact List.mem_map_of_mem lineKey hx
      simp [List.filter_cons, hm, hnil]
    · simp only [List.filter_cons, hm, Bool.false_eq_true, if_false]
      exact ih hnd.2

lemma one_le_filter_len_of_any (cs : List CartLine) (u p : Nat)
    (h : cs.any (lineMatches u p) = true) :
    1 ≤ (cs.filter (lineMatches u p)).length := by
  rw [List.any_eq_true] at h
  obtain ⟨x, hx, hm⟩ := h
  have hmem : x ∈ cs.filter (lineMatches u p) := List.mem_filter.mpr ⟨hx, hm⟩
  exact List.length_pos.mpr (List.ne_nil_of_mem hmem)

lemma nodup_key_add_to_cart (db : DB) (u p : Nat) (q : Int)
    (hnd : (db.carts.map lineKey).Nodup) :
    ((db_add_to_cart db u p q).carts.map lineKey).Nodup := by
  by_cases hany : db.carts.any (lineMatches u p) = true
  · rw [add_to_cart_any_eq db u p q hany]
    have : (db.carts.map (bumpIf u p q)).map lineKey = db.carts.map lineKey := by
      rw [List.map_map]
      have hcomp : (lineKey ∘ bumpIf u p q) = lineKey := by
        funext l
        exact lineKey_bumpIf u p q l
      rw [hcomp]
    rw [this]
    exact hnd
  · rw [Bool.not_eq_true] at hany
    rw [add_to_cart_not_any_eq db u p q hany]
    rw [List.map_append]
    have hmem : (u, p) ∉ db.carts.map lineKey := by
      intro hmem
      obtain ⟨l, hl, hk⟩ := List.mem_map.mp hmem
      rw [lineKey, Prod.mk.injEq] at hk
      have hm : lineMatches u p l = true := (lineMatches_iff u p l).mpr hk
      have : db.carts.any (lineMatches u p) = true :=
        List.any_eq_true.mpr ⟨l, hl, hm⟩
      rw [hany] at this
      exact Bool.false_ne_true this
    exact ((List.perm_append_singleton _ _).nodup_iff).mpr
      (List.nodup_cons.mpr ⟨hmem, hnd⟩)

lemma filter_nil_of_not_any (cs : List CartLine) (u p : Nat)
    (h : cs.any (lineMatches u p) = false) :
    cs.filter (lineMatches u p) = [] := by
  rw [List.filter_eq_nil_iff]
  intro x hx hmx
  have hh := List.any_eq_true.mpr ⟨x, hx, hmx⟩
  rw [h] at hh
  exact Bool.false_ne_true hh

lemma filter_len_add_one (db : DB) (u p : Nat) (q : Int)
    (hnd : (db.carts.map lineKey).Nodup) :
    ((db_add_to_cart db u p q).carts.filter (lineMatches u p)).length = 1 := by
  by_cases hany : db.carts.any (lineMatches u p) = true
  · rw [add_to_cart_any_eq db u p q hany]
    dsimp only
    rw [filter_map_bump, List.length_map]
    exact le_antisymm (filter_len_le_one db.carts u p hnd)
      (one_le_filter_len_of_any db.carts u p hany)
  · rw [Bool.not_eq_true] at hany
    rw [add_to_cart_not_any_eq db u p q hany]
    dsimp only
    rw [List.filter_append, filter_nil_of_not_any db.carts u p hany]
    simp [lineMatches]

lemma any_add_to_cart (db : DB) (u p : Nat) (q : Int) :
    (db_add_to_cart db u p q).carts.any (lineMatches u p) = true := by
  by_cases hany : db.carts.any (lineMatches u p) = true
  · rw [add_to_cart_any_eq db u p q hany]
    dsimp only
    rw [any_map_bump]
    exact hany
  · rw [Bool.not_eq_true] at hany
    rw [add_to_cart_not_any_eq db u p q hany]
    dsimp only
    rw [List.any_append]
    simp [lineMatches]

/-- C5: under the primary-key invariant (at most one cart row per
(user, product)), db_add_to_cart merges: adding quantity 1 twice produces
the very same state as adding quantity 2 once; the resulting cart holds
exactly one row for the pair; the invariant is preserved for any added
quantity; and the surviving (u, p) row's quantity is the old quantity
(0 when absent) plus 2. -/
theorem C5_add_to_cart_merge (db : DB) (u p : Nat)
    (hnd : (db.carts.map lineKey).Nodup) :
    db_add_to_cart (db_add_to_cart db u p 1) u p 1 = db_add_to_cart db u p 2 ∧
    ((db_add_to_cart (db_add_to_cart db u p 1) u p 1).carts.filter
        (lineMatches u p)).length = 1 ∧
    (∀ q : Int, ((db_add_to_cart db u p q).carts.map lineKey).Nodup) ∧
    ((db_add_to_cart db u p 2).carts.filter (lineMatches u p)).map CartLine.qty =
      [((db.carts.filter (lineMatches u p)).map CartLine.qty).sum + 2] := by
  refine ⟨?_, ?_, fun q => nodup_key_add_to_cart db u p q hnd, ?_⟩
  · by_cases hany : db.carts.any (lineMatches u p) = true
    · have hany2 : (db_add_to_cart db u p 1).carts.any (lineMatches u p) = true :=
        any_add_to_cart db u p 1
      rw [add_to_cart_any_eq _ u p 1 hany2, add_to_cart_any_eq db u p 1 hany,
        add_to_cart_any_eq db u p 2 hany]
      have hc : (db.carts.map (bumpIf u p 1)).map (bumpIf u p 1) =
          db.carts.map (bumpIf u p 2) := by
        rw [List.map_map]
        have hcomp : (bumpIf u p 1 ∘ bumpIf u p 1) = bumpIf u p 2 := by
          funext l
          exact bumpIf_bumpIf u p l
        rw [hcomp]
      dsimp only
      rw [hc]
    · rw [Bool.not_eq_true] at hany
      have hany2 : (db_add_to_cart db u p 1).carts.any (lineMatches u p) = true :=
        any_add_to_cart db u p 1
      rw [add_to_cart_any_eq _ u p 1 hany2, add_to_cart_not_any_eq db u p 1 hany,
        add_to_cart_not_any_eq db u p 2 hany]
      have hb : bumpIf u p 1 { user_id := u, product_id := p, qty := 1 } =
          { user_id := u, product_id := p, qty := 2 } := by
        unfold bumpIf
        rw [if_pos (by simp [lineMatches])]
        simp
      have hc : (db.carts ++
            [({ user_id := u, product_id := p, qty := 1 } : CartLine)]).map
            (bumpIf u p 1) =
          db.carts ++ [({ user_id := u, product_id := p, qty := 2 } : CartLine)] := by
        rw [List.map_append, map_bump_of_not_any db.carts u p 1 hany]
        simp [hb]
      dsimp only
      rw [hc]
  · have hnd1 : ((db_add_to_cart db u p 1).carts.map lineKey).Nodup :=
      nodup_key_add_to_cart db u p 1 hnd
    exact filter_len_add_one (db_add_to_cart db u p 1) u p 1 hnd1
  · by_cases hany : db.carts.any (lineMatches u p) = true
    · rw [add_to_cart_any_eq db u p 2 hany]
      dsimp only
      rw [filter_map_bump]
      have hlen : (db.carts.filter (lineMatches u p)).length = 1 :=
        le_antisymm (filter_len_le_one db.carts u p hnd)
          (one_le_filter_len_of_any db.carts u p hany)
      obtain ⟨l0, hl0⟩ := List.length_eq_one.mp hlen
      rw [hl0]
      have hm0 : lineMatches u p l0 = true := by
        have hmem : l0 ∈ db.carts.filter (lineMatches u p) := by
          rw [hl0]
          exact List.mem_singleton_self l0
        exact (List.mem_filter.mp hmem).2
      simp [bumpIf, hm0]
    · rw [Bool.not_eq_true] at hany
      rw [add_to_cart_not_any_eq db u p 2 hany]
      dsimp only
      rw [List.filter_append, filter_nil_of_not_any db.carts u p hany]
      simp [lineMatches]

/-- Witness instantiating C5 at a cart that already holds the (1, 1) row. -/
theorem C5_witness :
    (dbC1.carts.map lineKey).Nodup ∧
    (db_add_to_cart (db_add_to_cart dbC1 1 1 1) 1 1 1 = db_add_to_cart dbC1 1 1 2 ∧
     ((db_add_to_cart (db_add_to_cart dbC1 1 1 1) 1 1 1).carts.filter
         (lineMatches 1 1)).length = 1 ∧
     (∀ q : Int, ((db_add_to_cart dbC1 1 1 q).carts.map lineKey).Nodup) ∧
     ((db_add_to_cart dbC1 1 1 2).carts.filter (lineMatches 1 1)).map CartLine.qty =
       [((dbC1.carts.filter (lineMatches 1 1)).map CartLine.qty).sum + 2]) :=
  ⟨by decide, C5_add_to_cart_merge dbC1 1 1 (by decide)⟩

/-! Ordering helpers for the two ORDER BY ... DESC queries. -/

lemma sortDescBy_perm (key : α → Nat) (l : List α) :
    List.Perm (sortDescBy key l) l :=
  List.perm_insertionSort _ l

lemma sortDescBy_sorted (key : α → Nat) (l : List α) :
    List.Sorted (fun a b => key b ≤ key a) (sortDescBy key l) :=
  List.sorted_insertionSort _ l

lemma sortDescBy_pairwise_lt (key : α → Nat) (l : List α)
    (hnd : (l.map key).Nodup) :
    (sortDescBy key l).Pairwise (fun a b => key b < key a) := by
  have hsort := sortDescBy_sorted key l
  have hnd2 : ((sortDescBy key l).map key).Nodup :=
    ((sortDescBy_perm key l).map key).nodup_iff.mpr hnd
  have hne : (sortDescBy key l).Pairwise (fun a b => key a ≠ key b) :=
    List.pairwise_map.mp hnd2
  exact (hsort.and hne).imp
    (fun h => Nat.lt_of_le_of_ne h.1 (Ne.symm h.2))

lemma sortDescBy_head_of_max (key : α → Nat) (l : List α) (o : α)
    (ho : o ∈ l) (hmax : ∀ x ∈ l, x ≠ o → key x < key o) :
    (sortDescBy key l).head? = some o := by
  have hperm := sortDescBy_perm key l
  have hos : o ∈ sortDescBy key l := hperm.mem_iff.mpr ho
  have hsort := sortDescBy_sorted key l
  cases hs : sortDescBy key l with
  | nil =>
    rw [hs] at hos
    cases hos
  | cons hfirst t =>
    rw [hs] at hos hsort
    by_cases heq : hfirst = o
    · rw [List.head?_cons, heq]
    · have hmem_t : o ∈ t := by
        cases List.mem_cons.mp hos with
        | inl hh => exact absurd hh.symm heq
        | inr hh => exact hh
      have hle : key o ≤ key hfirst := List.rel_of_sorted_cons hsort o hmem_t
      have hfl : hfirst ∈ l := hperm.mem_iff.mp (by
        rw [hs]
        exact List.mem_cons_self hfirst t)
      have hlt : key hfirst < key o := hmax hfirst hfl heq
      omega

/-- C7: with distinct product ids (the primary-key invariant),
db_get_products returns at most PAGE_SIZE products, in strictly descending
id order (newest created first), every returned product comes from the
catalog after skipping PAGE_SIZE * page of the sorted sequence, and a page
beyond the last product yields the empty list rather than an error. -/
theorem C7_list_products (db : DB) (page : Nat)
    (hnd : (db.products.map Product.id).Nodup) :
    (db_get_products db page).length ≤ PAGE_SIZE ∧
    (db_get_products db page).Pairwise (fun a b => b.id < a.id) ∧
    (db.products.length ≤ PAGE_SIZE * page → db_get_products db page = []) := by
  refine ⟨?_, ?_, ?_⟩
  · unfold db_get_products
    exact (List.length_take _ _).le.trans (min_le_left _ _)
  · have hsub : List.Sublist (db_get_products db page)
        (sortDescBy Product.id db.products) := by
      unfold db_get_products
      exact (List.take_sublist _ _).trans (List.drop_sublist _ _)
    exact (sortDescBy_pairwise_lt Product.id db.products hnd).sublist hsub
  · intro hle
    unfold db_get_products
    have hlen : (sortDescBy Product.id db.products).length = db.products.length :=
      (sortDescBy_perm Product.id db.products).length_eq
    rw [List.drop_eq_nil_of_le (by rw [hlen]; exact hle)]
    rfl

/-- Catalog of eight products with ids 1..8, as in the pagination
scenario of the specification. -/
def db8 : DB :=
  { init_db with
      products := (List.range 8).map
        (fun i => { id := i + 1, title := "p", description := none,
                    price := 1, image := none }),
      next_product_id := 9 }

/-- Witness instantiating C7 on the eight-product catalog, together with
the concrete scenario: page 0 holds the six most recent ids 8..3 and
page 1 the remaining ids 2 and 1. -/
theorem C7_witness :
    (db8.products.map Product.id).Nodup ∧
    ((db_get_products db8 0).length ≤ PAGE_SIZE ∧
     (db_get_products db8 0).Pairwise (fun a b => b.id < a.id) ∧
     (db8.products.length ≤ PAGE_SIZE * 0 → db_get_products db8 0 = [])) ∧
    ((db_get_products db8 2).length ≤ PAGE_SIZE ∧
     (db_get_products db8 2).Pairwise (fun a b => b.id < a.id) ∧
     (db8.products.length ≤ PAGE_SIZE * 2 → db_get_products db8 2 = [])) ∧
    (db_get_products db8 0).map Product.id = [8, 7, 6, 5, 4, 3] ∧
    (db_get_products db8 1).map Product.id = [2, 1] ∧
    db_get_products db8 2 = [] :=
  ⟨by decide, C7_list_products db8 0 (by decide), C7_list_products db8 2 (by decide),
   by decide, by decide, by decide⟩

/-- C8: db_list_orders returns all stored orders (a permutation of the
table) in strictly newest-first creation order, under the clock invariant
that every stored stamp is distinct and below the current clock; and
immediately after a successful checkout the freshly created order is the
head of the listing. -/
theorem C8_list_orders (db : DB) (u : Nat)
    (hwf : ∀ o ∈ db.orders, o.created_at < db.time)
    (hnd : (db.orders.map Order.created_at).Nodup)
    (h : (db_get_cart db u).1 ≠ []) :
    List.Perm (db_list_orders db) db.orders ∧
    (db_list_orders db).Pairwise (fun a b => b.created_at < a.created_at) ∧
    (db_list_orders (checkout_callback true db u).1).head? =
      some { id := db.next_order_id, user_id := u,
             items := (db_get_cart db u).1.map snapshotItem,
             total := (db_get_cart db u).2, status := "new",
             created_at := db.time } := by
  refine ⟨sortDescBy_perm Order.created_at db.orders,
    sortDescBy_pairwise_lt Order.created_at db.orders hnd, ?_⟩
  rw [checkout_true_eq db u h]
  show (sortDescBy Order.created_at
      (db.orders ++
        [{ id := db.next_order_id, user_id := u,
           items := (db_get_cart db u).1.map snapshotItem,
           total := (db_get_cart db u).2, status := "new",
           created_at := db.time }])).head? = _
  apply sortDescBy_head_of_max
  · exact List.mem_append.mpr (Or.inr (List.mem_singleton_self _))
  · intro x hx hne
    cases List.mem_append.mp hx with
    | inl hx1 => exact hwf x hx1
    | inr hx2 => exact absurd (List.mem_singleton.mp hx2) hne

/-- Concrete state for the C8 witness: one existing order with stamp 0,
clock at 1, and a one-line cart for user 1. -/
def dbC8 : DB :=
  { products := [{ id := 1, title := "w", description := none,
                   price := 500, image := none }],
    carts := [{ user_id := 1, product_id := 1, qty := 2 }],
    orders := [{ id := 1, user_id := 9, items := [], total := 0,
                 status := "new", created_at := 0 }],
    next_product_id := 2, next_order_id := 2, time := 1 }

/-- Witness instantiating C8 at the concrete state dbC8. -/
theorem C8_witness :
    ((∀ o ∈ dbC8.orders, o.created_at < dbC8.time) ∧
     (dbC8.orders.map Order.created_at).Nodup ∧
     (db_get_cart dbC8 1).1 ≠ []) ∧
    (List.Perm (db_list_orders dbC8) dbC8.orders ∧
     (db_list_orders dbC8).Pairwise (fun a b => b.created_at < a.created_at) ∧
     (db_list_orders (checkout_callback true dbC8 1).1).head? =
       some { id := dbC8.next_order_id, user_id := 1,
              items := (db_get_cart dbC8 1).1.map snapshotItem,
              total := (db_get_cart dbC8 1).2, status := "new",
              created_at := dbC8.time }) :=
  ⟨⟨by decide, by decide, by decide⟩,
   C8_list_orders dbC8 1 (by decide) (by decide) (by decide)⟩
